import Mathlib

/-!
Shallow embedding of the courtfinder-akl refresh-and-consistency pipeline
(provider normalization, snapshot merging, change detection, snapshot cache,
retrying transport, alert manager with cooldown) together with theorems
settling the specification claims about it.

JavaScript objects / Maps keyed by strings are embedded as association lists
`List (κ × α)` in insertion order; `recordGet` is property lookup and
`recordSet` is property assignment (update-in-place-or-append, matching the
semantics of `obj[k] = v` and `Map.set`).
-/

namespace CourtFinder

/-- JS property read `obj[k]` / `Map.get`: the value of the first (unique)
matching key. -/
def recordGet {κ α : Type} [DecidableEq κ] : List (κ × α) → κ → Option α
  | [], _ => none
  | (k, v) :: rest, q => if q = k then some v else recordGet rest q

/-- JS property write `obj[k] = v` / `Map.set`: update in place when the key
exists, append otherwise. -/
def recordSet {κ α : Type} [DecidableEq κ] : List (κ × α) → κ → α → List (κ × α)
  | [], k, v => [(k, v)]
  | (k', v') :: rest, k, v =>
      if k = k' then (k, v) :: rest else (k', v') :: recordSet rest k v

/-! ## Data model (src/types.ts) -/

/-- `VenueId` (src/types.ts): the three configured venue identifiers. -/
inductive VenueId
  | activeBond
  | activeCorinthian
  | evergreen
deriving DecidableEq, Repr

/-- `Provider` (src/types.ts). -/
inductive Provider
  | active
  | evergreen
deriving DecidableEq, Repr

/-- `Venue` (src/types.ts). -/
structure Venue where
  id : VenueId
  name : String
  address : String
  provider : Provider
deriving DecidableEq, Repr

/-- `TimeSlot` (src/types.ts): optional JS fields become `Option`, absence is
`none`. -/
structure TimeSlot where
  available : Bool
  only_premium : Option Bool := none
  available_courts : Option (List String) := none
deriving DecidableEq, Repr

/-- `DaySummary` (src/types.ts). -/
structure DaySummary where
  total_slots : Nat
  available_slots : Nat
deriving DecidableEq, Repr

/-- `DayAvailability` (src/types.ts): `slots` is a record keyed by "HH:00". -/
structure DayAvailability where
  slots : List (String × TimeSlot)
  summary : DaySummary
deriving DecidableEq, Repr

/-- `VenueAvailability` (src/types.ts): `dates` is a record keyed by
"YYYY-MM-DD". -/
structure VenueAvailability where
  name : String
  address : String
  dates : List (String × DayAvailability)
deriving DecidableEq, Repr

/-- The `status` field of `ProviderStatus`. -/
inductive PStatus
  | ok
  | error
deriving DecidableEq, Repr

/-- `ProviderStatus` (src/types.ts). -/
structure ProviderStatus where
  status : PStatus
  last_fetch : Option String
  error : Option String := none
deriving DecidableEq, Repr

/-- The `provider_status` object of `CachedData`. -/
structure ProviderStatusPair where
  active : ProviderStatus
  evergreen : ProviderStatus
deriving DecidableEq, Repr

/-- `CachedData` (src/types.ts): the snapshot unit held by the cache. -/
structure CachedData where
  generated_at : String
  week_start : String
  week_end : String
  venues : List (VenueId × VenueAvailability)
  provider_status : ProviderStatusPair
deriving DecidableEq, Repr

/-- `ActiveTimeSlot` (src/types.ts). -/
structure ActiveTimeSlot where
  start_time : String
  end_time : String
  status : String
  user_name : Option String := none
deriving DecidableEq, Repr

/-- The `court` sub-object of `ActiveCourt`. -/
structure ActiveCourtInfo where
  id : Nat
  name : String
deriving DecidableEq, Repr

/-- `ActiveCourt` (src/types.ts). -/
structure ActiveCourt where
  court : ActiveCourtInfo
  timetable : List ActiveTimeSlot
deriving DecidableEq, Repr

/-- `ActiveVenue` (src/types.ts); the `venue` metadata block is never read by
the transformer and is omitted. `courts` is a record keyed by court id. -/
structure ActiveVenue where
  courts : List (String × ActiveCourt)
deriving DecidableEq, Repr

/-- `EvergreenCourt` (src/types.ts); the fields never read by the code
(`court_id`, `sort`, `user_id`, `selected`, `time`, `light`) are omitted.
`unavailable`/`booked`/`booking` are the provider's 0/1 flags. -/
structure EvergreenCourt where
  id : Nat
  name : String
  unavailable : Nat
  booked : Nat
  booking : Nat
deriving DecidableEq, Repr

/-- `EvergreenTimeSlot` (src/types.ts); `childer` is the provider's (typoed)
list of courts at that time. -/
structure EvergreenTimeSlot where
  time : String
  childer : List EvergreenCourt
deriving DecidableEq, Repr

/-! ## Static configuration (src/config.ts) -/

/-- `VENUES` (src/config.ts): static venue metadata. -/
def VENUES : List Venue :=
  [ ⟨VenueId.activeBond, "Active - Bond Crescent",
      "47 Bond Crescent, Forrest Hill, Auckland 0620", Provider.active⟩,
    ⟨VenueId.activeCorinthian, "Active - Corinthian Dr.",
      "20 Corinthian Drive, Albany, Auckland 0632", Provider.active⟩,
    ⟨VenueId.evergreen, "Evergreen Badminton",
      "22B Corinthian Drive, Albany, Auckland 0632", Provider.evergreen⟩ ]

/-- `String.padStart(2, "0")` for the strings produced by `hour.toString()`. -/
def padStart2 (s : String) : String :=
  if s.length ≥ 2 then s else if s.length = 1 then "0" ++ s else "00"

/-- `TIME_SLOTS` (src/config.ts): hourly labels from `SLOT_START_HOUR = 6` to
`SLOT_END_HOUR = 22` inclusive. -/
def TIME_SLOTS : List String :=
  (List.range' 6 17).map (fun h => padStart2 (toString h) ++ ":00")

/-- `VENUES.find((v) => v.id === id)!` — the lookup of static metadata; total
because every `VenueId` occurs in `VENUES` (the TS non-null assertion). -/
def venueMeta (id : VenueId) : Venue :=
  match VENUES.find? (fun v => v.id = id) with
  | some v => v
  | none => ⟨id, "", "", Provider.active⟩

/-! ## Provider helper predicates (src/providers/active.ts, evergreen.ts) -/

/-- `VENUE_ID_MAP` / `getInternalVenueId` (src/providers/active.ts). -/
def getInternalVenueId (activeVenueId : String) : Option VenueId :=
  if activeVenueId = "1" then some VenueId.activeBond
  else if activeVenueId = "2" then some VenueId.activeCorinthian
  else none

/-- `isActiveSlotAvailable` (src/providers/active.ts). -/
def isActiveSlotAvailable (status : String) : Bool :=
  status = "Available"

/-- Character-list comparison underlying `String.startsWith`. -/
def charsStartWith : List Char → List Char → Bool
  | [], _ => true
  | _ :: _, [] => false
  | p :: ps, c :: cs => p = c && charsStartWith ps cs

/-- JS `s.startsWith(pre)`. -/
def strStartsWith (s pre : String) : Bool :=
  charsStartWith pre.toList s.toList

/-- `isBadmintonCourt` (src/providers/evergreen.ts): label starts with the
badminton emoji marker. -/
def isBadmintonCourt (court : EvergreenCourt) : Bool :=
  strStartsWith court.name "🏸"

/-- `isPremiumCourt` (src/providers/evergreen.ts): the premium Court 7. -/
def isPremiumCourt (court : EvergreenCourt) : Bool :=
  court.name = "🏸 7"

/-- `isStandardCourt` (src/providers/evergreen.ts). -/
def isStandardCourt (court : EvergreenCourt) : Bool :=
  strStartsWith court.name "🏸" && court.name ≠ "🏸 7"

/-- `isEvergreenSlotAvailable` (src/providers/evergreen.ts): all three
provider flags clear. -/
def isEvergreenSlotAvailable (court : EvergreenCourt) : Bool :=
  court.unavailable = 0 && court.booked = 0 && court.booking = 0

/-- `name.match(/\d+/)`: the first maximal run of decimal digits of a string,
if any. -/
def firstDigitRun (s : String) : Option String :=
  let dropped := s.toList.dropWhile (fun c => !c.isDigit)
  match dropped with
  | [] => none
  | l => some (String.mk (l.takeWhile (fun c => c.isDigit)))

/-- Court-number extraction used by both transformers:
`match ? match[0] : name`. -/
def extractCourtNumber (name : String) : String :=
  match firstDigitRun name with
  | some d => d
  | none => name

/-- `Array.prototype.sort()` on strings: stable sort in lexicographic order. -/
def sortStrings (l : List String) : List String :=
  l.mergeSort (fun a b => a ≤ b)

/-! ## Normalizer (src/services/transformer.ts) -/

/-- The court-iteration loop body of `transformActiveDayData`: the court
numbers of all courts available at slot `t`, in court iteration order. -/
def activeAvailableCourts (courts : List (String × ActiveCourt)) (t : String) :
    List String :=
  (courts.filter (fun cd =>
    match cd.2.timetable.find? (fun s => s.start_time = t) with
    | some slot => isActiveSlotAvailable slot.status
    | none => false)).map (fun cd => extractCourtNumber cd.2.court.name)

/-- The per-slot body of `transformActiveDayData`: the `TimeSlot` value built
for label `t` (`available_courts` only set when some court is available). -/
def activeSlotData (venueData : Option ActiveVenue) (t : String) : TimeSlot :=
  let availableCourts :=
    match venueData with
    | some vd => activeAvailableCourts vd.courts t
    | none => []
  let anyAvailable := !availableCourts.isEmpty
  if anyAvailable then ⟨true, none, some (sortStrings availableCourts)⟩
  else ⟨false, none, none⟩

/-- One iteration of the `TIME_SLOTS` loop of `transformActiveDayData`:
store the slot and count it when available. -/
def activeDayStep (venueData : Option ActiveVenue)
    (acc : List (String × TimeSlot) × Nat) (t : String) :
    List (String × TimeSlot) × Nat :=
  (recordSet acc.1 t (activeSlotData venueData t),
    acc.2 + (if (activeSlotData venueData t).available then 1 else 0))

/-- `transformActiveDayData` (src/services/transformer.ts): the 17-slot
`DayAvailability` for one venue and one day of the anonymous provider. -/
def transformActiveDayData (venueData : Option ActiveVenue) : DayAvailability :=
  let r := TIME_SLOTS.foldl (activeDayStep venueData) ([], 0)
  ⟨r.1, ⟨TIME_SLOTS.length, r.2⟩⟩

/-- The `timeToCourtMap` construction of `transformEvergreenDayData`
(`Map.set` for each entry in order). -/
def buildTimeMap (l : List EvergreenTimeSlot) :
    List (String × EvergreenTimeSlot) :=
  l.foldl (fun m ts => recordSet m ts.time ts) []

/-- One iteration of the court loop of `transformEvergreenDayData`: skip
non-badminton and unavailable courts, record the court number, and raise the
premium or standard flag. The accumulator is
(standardAvailable, premiumAvailable, availableCourts). -/
def evergreenScanStep (acc : Bool × Bool × List String) (c : EvergreenCourt) :
    Bool × Bool × List String :=
  if !isBadmintonCourt c then acc
  else if !isEvergreenSlotAvailable c then acc
  else
    let courts' := acc.2.2 ++ [extractCourtNumber c.name]
    if isPremiumCourt c then (acc.1, true, courts')
    else if isStandardCourt c then (true, acc.2.1, courts')
    else (acc.1, acc.2.1, courts')

/-- The court-iteration loop of `transformEvergreenDayData`. -/
def evergreenSlotScan (courts : List EvergreenCourt) :
    Bool × Bool × List String :=
  courts.foldl evergreenScanStep (false, false, [])

/-- The courts listed at time label `t` by an Evergreen day response
(`timeToCourtMap.get(timeSlot)?.childer`, empty when the label is absent). -/
def evergreenCourtsAt (timeSlots : Option (List EvergreenTimeSlot))
    (t : String) : List EvergreenCourt :=
  let timeToCourtMap :=
    match timeSlots with
    | some l => buildTimeMap l
    | none => []
  match recordGet timeToCourtMap t with
  | some ts => ts.childer
  | none => []

/-- The per-slot body of `transformEvergreenDayData`: the `TimeSlot` value
built from the courts at one label (`only_premium` set only when the premium
court alone is open). -/
def evergreenSlotData (childer : List EvergreenCourt) : TimeSlot :=
  let scan := evergreenSlotScan childer
  let standardAvailable := scan.1
  let premiumAvailable := scan.2.1
  let availableCourts := scan.2.2
  let anyAvailable := standardAvailable || premiumAvailable
  let onlyPremium := !standardAvailable && premiumAvailable
  ⟨anyAvailable,
    if onlyPremium then some true else none,
    if anyAvailable then some (sortStrings availableCourts) else none⟩

/-- One iteration of the `TIME_SLOTS` loop of `transformEvergreenDayData`:
store the slot and count it when available. -/
def evergreenDayStep (timeSlots : Option (List EvergreenTimeSlot))
    (acc : List (String × TimeSlot) × Nat) (t : String) :
    List (String × TimeSlot) × Nat :=
  (recordSet acc.1 t (evergreenSlotData (evergreenCourtsAt timeSlots t)),
    acc.2 +
      (if (evergreenSlotData (evergreenCourtsAt timeSlots t)).available
        then 1 else 0))

/-- `transformEvergreenDayData` (src/services/transformer.ts): the 17-slot
`DayAvailability` with premium-court handling. -/
def transformEvergreenDayData (timeSlots : Option (List EvergreenTimeSlot)) :
    DayAvailability :=
  let r := TIME_SLOTS.foldl (evergreenDayStep timeSlots) ([], 0)
  ⟨r.1, ⟨TIME_SLOTS.length, r.2⟩⟩

/-- `transformActiveData` (src/services/transformer.ts): distributes per-date
per-venue raw data into the two Active venues, initialized from `VENUES`
metadata. -/
def transformActiveData
    (activeData : List (String × List (String × ActiveVenue))) :
    List (VenueId × VenueAvailability) :=
  let bondVenue := venueMeta VenueId.activeBond
  let corinthianVenue := venueMeta VenueId.activeCorinthian
  let dates :=
    activeData.foldl
      (fun (acc : List (String × DayAvailability) × List (String × DayAvailability))
          entry =>
        entry.2.foldl
          (fun acc2 ve =>
            match getInternalVenueId ve.1 with
            | none => acc2
            | some vid =>
              let dayAvailability := transformActiveDayData (some ve.2)
              if vid = VenueId.activeBond then
                (recordSet acc2.1 entry.1 dayAvailability, acc2.2)
              else
                (acc2.1, recordSet acc2.2 entry.1 dayAvailability))
          acc)
      ([], [])
  [ (VenueId.activeBond, ⟨bondVenue.name, bondVenue.address, dates.1⟩),
    (VenueId.activeCorinthian,
      ⟨corinthianVenue.name, corinthianVenue.address, dates.2⟩) ]

/-- `transformEvergreenData` (src/services/transformer.ts). -/
def transformEvergreenData
    (evergreenData : List (String × List EvergreenTimeSlot)) :
    VenueAvailability :=
  let evergreenVenue := venueMeta VenueId.evergreen
  ⟨evergreenVenue.name, evergreenVenue.address,
    evergreenData.foldl
      (fun acc e => recordSet acc e.1 (transformEvergreenDayData (some e.2)))
      []⟩

/-- `mergeProviderData` (src/services/transformer.ts): assembles the candidate
snapshot; `now` stands for `new Date().toISOString()`. -/
def mergeProviderData
    (activeData : Option (List (String × List (String × ActiveVenue))))
    (evergreenData : Option (List (String × List EvergreenTimeSlot)))
    (dates : List String)
    (activeStatus evergreenStatus : ProviderStatus)
    (now : String) : CachedData :=
  let venues0 : List (VenueId × VenueAvailability) :=
    match activeData with
    | some m =>
      if m.length > 0 then
        (transformActiveData m).foldl (fun acc e => recordSet acc e.1 e.2) []
      else
        let bondVenue := venueMeta VenueId.activeBond
        let corinthianVenue := venueMeta VenueId.activeCorinthian
        recordSet
          (recordSet [] VenueId.activeBond
            ⟨bondVenue.name, bondVenue.address, []⟩)
          VenueId.activeCorinthian
          ⟨corinthianVenue.name, corinthianVenue.address, []⟩
    | none =>
        let bondVenue := venueMeta VenueId.activeBond
        let corinthianVenue := venueMeta VenueId.activeCorinthian
        recordSet
          (recordSet [] VenueId.activeBond
            ⟨bondVenue.name, bondVenue.address, []⟩)
          VenueId.activeCorinthian
          ⟨corinthianVenue.name, corinthianVenue.address, []⟩
  let venues1 : List (VenueId × VenueAvailability) :=
    match evergreenData with
    | some m =>
      if m.length > 0 then
        recordSet venues0 VenueId.evergreen (transformEvergreenData m)
      else
        let evergreenVenue := venueMeta VenueId.evergreen
        recordSet venues0 VenueId.evergreen
          ⟨evergreenVenue.name, evergreenVenue.address, []⟩
    | none =>
        let evergreenVenue := venueMeta VenueId.evergreen
        recordSet venues0 VenueId.evergreen
          ⟨evergreenVenue.name, evergreenVenue.address, []⟩
  let sortedDates := sortStrings dates
  ⟨now,
    sortedDates.head?.getD "",
    sortedDates.getLast?.getD "",
    venues1,
    ⟨activeStatus, evergreenStatus⟩⟩

/-! ## Change detector (src/services/change-detector.ts) -/

/-- `SlotChange` (src/services/change-detector.ts). -/
structure SlotChange where
  venueId : VenueId
  date : String
  timeSlot : String
  availableCourts : List String
  onlyPremium : Option Bool
deriving DecidableEq, Repr

/-- `detectChanges` (src/services/change-detector.ts): slots that transitioned
from unavailable to available between the previous and current snapshots; the
nested loops with `changes.push` become nested `flatMap`/`filterMap` in the
same iteration order. -/
def detectChanges (previous : Option CachedData) (current : CachedData) :
    List SlotChange :=
  match previous with
  | none => []
  | some prev =>
    current.venues.flatMap (fun ve =>
      match recordGet prev.venues ve.1 with
      | none => []
      | some previousVenue =>
        ve.2.dates.flatMap (fun de =>
          match recordGet previousVenue.dates de.1 with
          | none => []
          | some previousDay =>
            de.2.slots.filterMap (fun se =>
              let wasAvailable :=
                match recordGet previousDay.slots se.1 with
                | some previousSlot => previousSlot.available
                | none => false
              let isAvailable := se.2.available
              if !wasAvailable && isAvailable then
                some ⟨ve.1, de.1, se.1,
                  se.2.available_courts.getD [], se.2.only_premium⟩
              else none)))

/-! ## Snapshot cache (src/services/cache.ts)

Timestamps are epoch milliseconds (`Date.now()`), modelled as `Int` so that
age computations (`now - lastRefresh`) keep JS subtraction semantics. -/

/-- The private state of the `AvailabilityCache` class. -/
structure AvailabilityCache where
  data : Option CachedData
  lastRefresh : Option Int
deriving Repr

/-- The freshly constructed cache: both fields `null`. -/
def AvailabilityCache.initial : AvailabilityCache := ⟨none, none⟩

/-- `AvailabilityCache.get` (src/services/cache.ts): the full or
venue-filtered snapshot, `null` when absent. The optional `venueIds` argument
is `none` for omitted and `some l` for a supplied array. -/
def AvailabilityCache.get (c : AvailabilityCache)
    (venueIds : Option (List VenueId)) : Option CachedData :=
  match c.data with
  | none => none
  | some d =>
    match venueIds with
    | none => some d
    | some [] => some d
    | some ids =>
      let filteredVenues :=
        ids.foldl
          (fun acc vid =>
            match recordGet d.venues vid with
            | some va => recordSet acc vid va
            | none => acc)
          []
      some { d with venues := filteredVenues }

/-- `AvailabilityCache.set` (src/services/cache.ts); `now` is `new Date()`. -/
def AvailabilityCache.set (c : AvailabilityCache) (data : CachedData)
    (now : Int) : AvailabilityCache :=
  let _ := c
  ⟨some data, some now⟩

/-- `AvailabilityCache.isStale` (src/services/cache.ts): age exceeds
`ttlMinutes`; an absent refresh time is stale. -/
def AvailabilityCache.isStale (c : AvailabilityCache) (ttlMinutes : Nat)
    (now : Int) : Bool :=
  match c.lastRefresh with
  | none => true
  | some t => now - t > (ttlMinutes : Int) * 60 * 1000

/-- `AvailabilityCache.isTooOldToServe` (src/services/cache.ts): age exceeds
`staleServeMinutes`. -/
def AvailabilityCache.isTooOldToServe (c : AvailabilityCache)
    (staleServeMinutes : Nat) (now : Int) : Bool :=
  match c.lastRefresh with
  | none => true
  | some t => now - t > (staleServeMinutes : Int) * 60 * 1000

/-- `AvailabilityCache.isDateInRange` (src/services/cache.ts): string
comparison against `[week_start, week_end]`; `false` when no data. -/
def AvailabilityCache.isDateInRange (c : AvailabilityCache) (date : String) :
    Bool :=
  match c.data with
  | none => false
  | some d => date ≥ d.week_start && date ≤ d.week_end

/-! ## Retrying transport (src/providers/http-client.ts) -/

/-- `RetryConfig` (src/providers/http-client.ts). -/
structure RetryConfig where
  maxRetries : Nat
  initialDelayMs : Nat
  maxDelayMs : Nat
  backoffMultiplier : Nat
deriving DecidableEq, Repr

/-- `defaultRetryConfig` (src/providers/http-client.ts). -/
def defaultRetryConfig : RetryConfig := ⟨3, 1000, 10000, 2⟩

/-- The outcome of one `fetch` call: a thrown network error or a `Response`
with a status code. -/
inductive FetchOutcome
  | netError (msg : String)
  | response (status : Nat)
deriving DecidableEq, Repr

/-- `response.ok`: status in [200, 300). -/
def respOk (status : Nat) : Bool :=
  200 ≤ status && status < 300

/-- The client-error range checked by `fetchWithRetry`: [400, 500). -/
def isClientError (status : Nat) : Bool :=
  400 ≤ status && status < 500

/-- The `lastError` message recorded for a retryable response
(`HTTP status: statusText`; the status text is elided). -/
def httpErrorMsg (status : Nat) : String :=
  "HTTP " ++ toString status

/-- Whether an attempt outcome makes `fetchWithRetry` return immediately
(success or 4xx) rather than record an error and retry. -/
def attemptReturns : FetchOutcome → Bool
  | FetchOutcome.netError _ => false
  | FetchOutcome.response s => respOk s || isClientError s

/-- The error message an attempt contributes to `lastError` when it does not
return. -/
def attemptErrorMsg : FetchOutcome → String
  | FetchOutcome.netError m => m
  | FetchOutcome.response s => httpErrorMsg s

/-- The observable result of `fetchWithRetry`: the returned status or the
thrown error, the number of `fetch` calls performed, and the sleeps taken. -/
structure RetryResult where
  outcome : Except String Nat
  requests : Nat
  waits : List Nat
deriving Repr

/-- The `for (attempt = 0; attempt <= maxRetries; attempt++)` loop of
`fetchWithRetry`, with the `fetch` of attempt `attempt` answered by
`oracle attempt`; `fuel` is the number of loop iterations still allowed
(`maxRetries + 1 - attempt`). On a retryable failure (network error or a
non-4xx error status) the loop records the error; with iterations left it
sleeps the current delay and continues with the delay doubled up to the cap
(fuel ≥ 2 branch), otherwise it throws the recorded last error (fuel = 1
branch, `attempt = maxRetries`: no sleep after the last attempt). -/
def fetchLoop (oracle : Nat → FetchOutcome) (cfg : RetryConfig) :
    Nat → Nat → Nat → Option String → RetryResult
  | 0, _, _, lastError =>
      ⟨Except.error (lastError.getD "Request failed after retries"), 0, []⟩
  | 1, attempt, _, _ =>
      match oracle attempt with
      | FetchOutcome.response s =>
        if respOk s || isClientError s then ⟨Except.ok s, 1, []⟩
        else ⟨Except.error (httpErrorMsg s), 1, []⟩
      | FetchOutcome.netError m => ⟨Except.error m, 1, []⟩
  | fuel + 2, attempt, delay, _ =>
      match oracle attempt with
      | FetchOutcome.response s =>
        if respOk s || isClientError s then ⟨Except.ok s, 1, []⟩
        else
          let r := fetchLoop oracle cfg (fuel + 1) (attempt + 1)
            (min (delay * cfg.backoffMultiplier) cfg.maxDelayMs)
            (some (httpErrorMsg s))
          ⟨r.outcome, r.requests + 1, delay :: r.waits⟩
      | FetchOutcome.netError m =>
          let r := fetchLoop oracle cfg (fuel + 1) (attempt + 1)
            (min (delay * cfg.backoffMultiplier) cfg.maxDelayMs) (some m)
          ⟨r.outcome, r.requests + 1, delay :: r.waits⟩

/-- `fetchWithRetry` (src/providers/http-client.ts) as a function of the
per-attempt fetch oracle. -/
def fetchWithRetry (oracle : Nat → FetchOutcome)
    (cfg : RetryConfig := defaultRetryConfig) : RetryResult :=
  fetchLoop oracle cfg (cfg.maxRetries + 1) 0 cfg.initialDelayMs none

/-! ## Alert manager (src/services/email-alerter.ts)

The KV-persisted `AlertState` is passed explicitly; every KV `get` reads the
state produced by the previous `put`. The environment gates of `sendAlert`
(email binding, recipient, runtime class) and the success of the underlying
`send` are oracle booleans. The in-memory `AlertService` variant
(src/services/alerter.ts) has the same cooldown and counter logic. -/

/-- `AlertState` (src/services/email-alerter.ts); `lastAlertTime` in epoch
milliseconds. -/
structure AlertState where
  consecutiveFailures : Nat
  lastAlertTime : Option Int
deriving DecidableEq, Repr

/-- The alert subjects produced at the call sites of `sendAlert`. -/
inductive Subject
  | providerFailed (provider : String)
  | allProvidersFailed
  | recovered
deriving DecidableEq, Repr

/-- `subject.includes("Recovered")` for the subjects actually produced: the
failure subjects ("Provider Failed: Active"/"Provider Failed: Evergreen"/
"Refresh Failed: All Providers") never contain the word. -/
def Subject.includesRecovered : Subject → Bool
  | Subject.recovered => true
  | _ => false

/-- The environment/runtime gates of `sendAlert`. -/
structure AlertEnv where
  cooldownMinutes : Nat
  hasEmailBinding : Bool
  hasRecipient : Bool
  emailClassAvailable : Bool
deriving DecidableEq, Repr

/-- `isInCooldown` (src/services/email-alerter.ts). -/
def isInCooldown (state : AlertState) (cooldownMinutes : Nat) (now : Int) :
    Bool :=
  match state.lastAlertTime with
  | none => false
  | some t => now - t < (cooldownMinutes : Int) * 60 * 1000

/-- `sendAlert` (src/services/email-alerter.ts): returns whether the alert was
delivered and the resulting persisted state; `sendOk` is whether the
underlying email send succeeds (a failure is caught and logged). -/
def sendAlert (env : AlertEnv) (sendOk : Bool) (now : Int) (subject : Subject)
    (state : AlertState) : Bool × AlertState :=
  if isInCooldown state env.cooldownMinutes now && !subject.includesRecovered
  then
    (false, state)
  else if !env.hasEmailBinding then (false, state)
  else if !env.hasRecipient then (false, state)
  else if !env.emailClassAvailable then (false, state)
  else if sendOk then (true, { state with lastAlertTime := some now })
  else (false, state)

/-- `onRefreshFailure` (src/services/email-alerter.ts): increments and
persists the consecutive-failure counter, then attempts the failure alert. -/
def onRefreshFailure (env : AlertEnv) (sendOk : Bool) (now : Int)
    (provider : Option String) (state : AlertState) : Bool × AlertState :=
  let newState : AlertState :=
    { state with consecutiveFailures := state.consecutiveFailures + 1 }
  let subject :=
    match provider with
    | some p => Subject.providerFailed p
    | none => Subject.allProvidersFailed
  sendAlert env sendOk now subject newState

/-- The observable result of `onRecovery`: whether an alert was delivered,
the failure count reported in the alert body when one was attempted, and the
final persisted state. The final `setAlertState` writes back the state read
at entry with the counter zeroed, so the `lastAlertTime` recorded by
`sendAlert` is overwritten with the entry value (faithful to the code). -/
def onRecovery (env : AlertEnv) (sendOk : Bool) (now : Int)
    (state : AlertState) : Bool × Option Nat × AlertState :=
  if state.consecutiveFailures > 0 then
    let sent := sendAlert env sendOk now Subject.recovered state
    (sent.1, some state.consecutiveFailures,
      { state with consecutiveFailures := 0 })
  else
    (false, none, state)

/-! ## Refresh orchestrator (src/services/refresh.ts) -/

/-- The way the Alert Manager is driven on the provider outcomes. -/
inductive AlertDrive
  | bothFailed
  | activeFailed
  | evergreenFailed
  | recovery
deriving DecidableEq, Repr

/-- The externally visible effects of one `refreshAllData` invocation, in
program order. -/
inductive RefreshEvent
  | alertDrive (k : AlertDrive)
  | detect
  | webhook
  | cacheSet
deriving DecidableEq, Repr

/-- The observable outcome of one `refreshAllData` invocation. -/
structure RefreshOutcome where
  events : List RefreshEvent
  cacheAfter : Option CachedData
  snapshotSet : Bool
deriving Repr

/-- A settled provider promise: fulfilled with a per-date map, or rejected
with an error message. -/
def ProviderResult (α : Type) := Except String α

/-- The date map a settled provider promise contributes (`null` when the
fetch rejected). -/
def resultData {κ α : Type} (r : Except String (List (κ × α))) :
    Option (List (κ × α)) :=
  match r with
  | Except.ok m => some m
  | Except.error _ => none

/-- The number of dates a provider invocation returned (zero when the fetch
rejected). -/
def datesReturned {κ α : Type} (r : Except String (List (κ × α))) : Nat :=
  match r with
  | Except.ok m => m.length
  | Except.error _ => 0

/-- The `ProviderStatus` `refreshAllData` derives from a settled provider
promise (fulfilled-but-empty counts as an error with "No data returned"). -/
def statusOfResult {κ α : Type} (r : Except String (List (κ × α)))
    (now : String) : ProviderStatus :=
  match r with
  | Except.ok m =>
    if m.length = 0 then ⟨PStatus.error, some now, some "No data returned"⟩
    else ⟨PStatus.ok, some now, none⟩
  | Except.error e => ⟨PStatus.error, some now, some e⟩

/-- `refreshAllData` (src/services/refresh.ts): given the settled results of
the two concurrent provider fetches, the target dates, the clock and the
cache contents before the call, produce the effect trace and the cache
contents after the call. The alerter calls, change detection, webhook
dispatch and `setCachedData` appear as events in program order. -/
def refreshAllData
    (activeResult : Except String (List (String × List (String × ActiveVenue))))
    (evergreenResult : Except String (List (String × List EvergreenTimeSlot)))
    (dates : List String) (now : String)
    (cacheBefore : Option CachedData) : RefreshOutcome :=
  let activeData := resultData activeResult
  let evergreenData := resultData evergreenResult
  let activeError : Bool :=
    match activeResult with
    | Except.ok m => m.isEmpty
    | Except.error _ => true
  let evergreenError : Bool :=
    match evergreenResult with
    | Except.ok m => m.isEmpty
    | Except.error _ => true
  let activeStatus := statusOfResult activeResult now
  let evergreenStatus := statusOfResult evergreenResult now
  let alertEvent : RefreshEvent :=
    if activeError && evergreenError then
      RefreshEvent.alertDrive AlertDrive.bothFailed
    else if activeError then RefreshEvent.alertDrive AlertDrive.activeFailed
    else if evergreenError then
      RefreshEvent.alertDrive AlertDrive.evergreenFailed
    else RefreshEvent.alertDrive AlertDrive.recovery
  let hasData : Bool :=
    (match activeData with
      | some m => m.length > 0
      | none => false) ||
    (match evergreenData with
      | some m => m.length > 0
      | none => false)
  if hasData then
    let previousData := cacheBefore
    let mergedData :=
      mergeProviderData activeData evergreenData dates activeStatus
        evergreenStatus now
    let changes := detectChanges previousData mergedData
    let webhookEvents :=
      if changes.length > 0 then [RefreshEvent.webhook] else []
    ⟨[alertEvent, RefreshEvent.detect] ++ webhookEvents ++
        [RefreshEvent.cacheSet],
      some mergedData, true⟩
  else
    ⟨[alertEvent], cacheBefore, false⟩

/-! ## Helper lemmas on records -/

theorem recordGet_nil {κ α : Type} [DecidableEq κ] (q : κ) :
    recordGet ([] : List (κ × α)) q = none := rfl

theorem recordGet_cons {κ α : Type} [DecidableEq κ] (k q : κ) (v : α)
    (rest : List (κ × α)) :
    recordGet ((k, v) :: rest) q =
      if q = k then some v else recordGet rest q := rfl

theorem recordGet_recordSet {κ α : Type} [DecidableEq κ]
    (l : List (κ × α)) (k q : κ) (v : α) :
    recordGet (recordSet l k v) q = if q = k then some v else recordGet l q := by
  induction l with
  | nil => simp [recordSet, recordGet]
  | cons hd tl ih =>
    obtain ⟨k', v'⟩ := hd
    by_cases hk : k = k'
    · subst hk
      simp only [recordSet, if_pos rfl, recordGet_cons]
      by_cases hq : q = k <;> simp [hq, recordGet_cons]
    · simp only [recordSet, if_neg hk, recordGet_cons, ih]
      by_cases hq : q = k'
      · subst hq
        have hqk : ¬q = k := fun h => hk h.symm
        simp [hqk]
      · simp [hq]

/-- A successful `recordGet` exhibits a member of the association list. -/
theorem mem_of_recordGet_eq_some {κ α : Type} [DecidableEq κ]
    {l : List (κ × α)} {k : κ} {v : α} (h : recordGet l k = some v) :
    (k, v) ∈ l := by
  induction l with
  | nil => simp [recordGet] at h
  | cons hd tl ih =>
    obtain ⟨k', v'⟩ := hd
    rw [recordGet_cons] at h
    by_cases hk : k = k'
    · rw [if_pos hk] at h
      injection h with h
      exact List.mem_cons.2 (Or.inl (by rw [hk, ← h]))
    · rw [if_neg hk] at h
      exact List.mem_cons_of_mem _ (ih h)

/-- With duplicate-free keys, membership determines the `recordGet` value. -/
theorem recordGet_eq_some_of_mem {κ α : Type} [DecidableEq κ]
    {l : List (κ × α)} {k : κ} {v : α}
    (hnd : (l.map Prod.fst).Nodup) (h : (k, v) ∈ l) :
    recordGet l k = some v := by
  induction l with
  | nil => simp at h
  | cons hd tl ih =>
    obtain ⟨k', v'⟩ := hd
    simp only [List.map_cons, List.nodup_cons] at hnd
    rcases List.mem_cons.1 h with heq | hmem
    · cases heq
      simp [recordGet_cons]
    · have hk : k ≠ k' := by
        rintro rfl
        exact hnd.1 (List.mem_map.2 ⟨(k, v), hmem, rfl⟩)
      rw [recordGet_cons, if_neg hk]
      exact ih hnd.2 hmem

/-- The first component of a paired fold whose first component evolves
independently of the second. -/
theorem foldl_pair_fst {α β γ : Type} (g : α → γ → α) (h : α → β → γ → β)
    (l : List γ) :
    ∀ (a : α) (b : β),
      (l.foldl (fun p x => (g p.1 x, h p.1 p.2 x)) (a, b)).1 = l.foldl g a := by
  induction l with
  | nil => intro a b; rfl
  | cons hd tl ih => intro a b; exact ih (g a hd) (h a b hd)

/-- Looking up a key in a record built by setting `f x` at every `x` of a key
list: the last write wins, and every listed key is present. -/
theorem recordGet_foldl_recordSet {α : Type} (f : String → α) :
    ∀ (ts : List String) (init : List (String × α)) (t : String),
      recordGet (ts.foldl (fun acc x => recordSet acc x (f x)) init) t =
        if t ∈ ts then some (f t) else recordGet init t := by
  intro ts
  induction ts with
  | nil => intro init t; simp
  | cons hd tl ih =>
    intro init t
    simp only [List.foldl_cons, ih, recordGet_recordSet, List.mem_cons]
    by_cases htl : t ∈ tl
    · simp [htl]
    · by_cases hhd : t = hd
      · simp [hhd, htl]
      · simp [htl, hhd]

/-! ## C10 — empty cache is absent and maximally stale -/

/-- C10: before any successful `set()` the cache (its freshly constructed
state) returns `none` from `get` for every venue filter, reports every date
out of range, and reports itself both stale and too old to serve, for every
clock value and configured TTL/ceiling. -/
theorem cache_initial_maximally_stale
    (venueIds : Option (List VenueId)) (date : String) (now : Int)
    (ttlMinutes staleServeMinutes : Nat) :
    AvailabilityCache.initial.get venueIds = none ∧
    AvailabilityCache.initial.isDateInRange date = false ∧
    AvailabilityCache.initial.isStale ttlMinutes now = true ∧
    AvailabilityCache.initial.isTooOldToServe staleServeMinutes now = true :=
  ⟨rfl, rfl, rfl, rfl⟩

/-! ## C8 — a day with no data has 17 unavailable slots -/

/-- The expected all-unavailable day: every one of the 17 labels carries
`available := false` and the summary counts 0 of 17. -/
def emptyDayAvailability : DayAvailability :=
  ⟨TIME_SLOTS.map (fun t => (t, ⟨false, none, none⟩)), ⟨17, 0⟩⟩

/-- C8: for a day with no venue data at all — `undefined` input to either
normalizer, or a venue with no courts, or an empty Evergreen slot list — the
produced `DayAvailability` has exactly the 17 fixed hourly labels 06:00
through 22:00, each slot `available := false`, and a summary of 0 available
out of 17 total. -/
theorem transform_no_data_all_unavailable :
    transformActiveDayData none = emptyDayAvailability ∧
    (∀ vd : ActiveVenue, vd.courts = [] →
      transformActiveDayData (some vd) = emptyDayAvailability) ∧
    transformEvergreenDayData none = emptyDayAvailability ∧
    transformEvergreenDayData (some []) = emptyDayAvailability ∧
    emptyDayAvailability.slots.map Prod.fst =
      ["06:00", "07:00", "08:00", "09:00", "10:00", "11:00", "12:00", "13:00",
       "14:00", "15:00", "16:00", "17:00", "18:00", "19:00", "20:00", "21:00",
       "22:00"] ∧
    (∀ e ∈ emptyDayAvailability.slots, e.2.available = false) ∧
    emptyDayAvailability.summary = ⟨17, 0⟩ := by
  refine ⟨by decide, ?_, by decide, by decide, by decide, by decide, rfl⟩
  rintro ⟨courts⟩ h
  simp only at h
  subst h
  decide

/-- Witness for C8 at the concrete court-free venue value. -/
theorem transform_no_data_all_unavailable_witness :
    transformActiveDayData (some ⟨[]⟩) = emptyDayAvailability :=
  transform_no_data_all_unavailable.2.1 ⟨[]⟩ rfl

/-! ## C1 — refresh frame condition on the cached snapshot -/

/-- C1: when both providers return zero dates (a rejected fetch or a
fulfilled-but-empty date map), `refreshAllData` leaves the cached snapshot
exactly as it was and performs no snapshot write; when at least one provider
returned a non-empty date map, a snapshot write occurs and the cache
afterwards holds a (new, merged) snapshot. -/
theorem refresh_snapshot_frame
    (aR : Except String (List (String × List (String × ActiveVenue))))
    (eR : Except String (List (String × List EvergreenTimeSlot)))
    (dates : List String) (now : String) (cacheBefore : Option CachedData) :
    (datesReturned aR = 0 → datesReturned eR = 0 →
      (refreshAllData aR eR dates now cacheBefore).cacheAfter = cacheBefore ∧
      (refreshAllData aR eR dates now cacheBefore).snapshotSet = false) ∧
    (0 < datesReturned aR ∨ 0 < datesReturned eR →
      (refreshAllData aR eR dates now cacheBefore).snapshotSet = true ∧
      (refreshAllData aR eR dates now cacheBefore).cacheAfter =
        some (mergeProviderData (resultData aR) (resultData eR) dates
          (statusOfResult aR now) (statusOfResult eR now) now)) := by
  rcases aR with ea | ma <;> rcases eR with ee | me
  · exact ⟨fun _ _ => ⟨rfl, rfl⟩,
      fun h => by rcases h with h | h <;> simp [datesReturned] at h⟩
  · cases me with
    | nil =>
      exact ⟨fun _ _ => ⟨rfl, rfl⟩,
        fun h => by rcases h with h | h <;> simp [datesReturned] at h⟩
    | cons e es =>
      refine ⟨fun _ he => by simp [datesReturned] at he, fun _ => ?_⟩
      constructor <;> simp [refreshAllData, resultData]
  · cases ma with
    | nil =>
      exact ⟨fun _ _ => ⟨rfl, rfl⟩,
        fun h => by rcases h with h | h <;> simp [datesReturned] at h⟩
    | cons a as =>
      refine ⟨fun ha _ => by simp [datesReturned] at ha, fun _ => ?_⟩
      constructor <;> simp [refreshAllData, resultData]
  · cases ma with
    | nil =>
      cases me with
      | nil =>
        exact ⟨fun _ _ => ⟨rfl, rfl⟩,
          fun h => by rcases h with h | h <;> simp [datesReturned] at h⟩
      | cons e es =>
        refine ⟨fun _ he => by simp [datesReturned] at he, fun _ => ?_⟩
        constructor <;> simp [refreshAllData, resultData]
    | cons a as =>
      refine ⟨fun ha _ => by simp [datesReturned] at ha, fun _ => ?_⟩
      constructor <;> simp [refreshAllData, resultData]

/-- A concrete previously cached snapshot: the Bond venue with slot 06:00 of
2025-01-01 unavailable. -/
def witnessPrevSnapshot : CachedData :=
  ⟨"t0", "2025-01-01", "2025-01-01",
    [(VenueId.activeBond,
      ⟨"Active - Bond Crescent",
        "47 Bond Crescent, Forrest Hill, Auckland 0620",
        [("2025-01-01",
          ⟨[("06:00", ⟨false, none, none⟩)], ⟨17, 0⟩⟩)]⟩)],
    ⟨⟨PStatus.ok, some "t0", none⟩, ⟨PStatus.ok, some "t0", none⟩⟩⟩

/-- A concrete fulfilled Active provider result: one date, the Bond venue
("1"), one court whose 06:00 slot is Available. -/
def witnessActiveData : List (String × List (String × ActiveVenue)) :=
  [("2025-01-01",
    [("1", ⟨[("9", ⟨⟨9, "Court 1"⟩,
      [⟨"06:00", "07:00", "Available", none⟩]⟩)]⟩)])]

/-- Witness for C1 at concrete inputs: an invocation with both providers
empty leaves a concrete cached snapshot in place, and an invocation with a
non-empty Active result writes the merged snapshot. -/
theorem refresh_snapshot_frame_witness :
    (refreshAllData (Except.ok []) (Except.error "boom") [] "t1"
        (some witnessPrevSnapshot)).cacheAfter = some witnessPrevSnapshot ∧
    (refreshAllData (Except.ok witnessActiveData) (Except.error "boom")
        ["2025-01-01"] "t1" none).snapshotSet = true :=
  ⟨((refresh_snapshot_frame (Except.ok []) (Except.error "boom") [] "t1"
      (some witnessPrevSnapshot)).1 rfl rfl).1,
   ((refresh_snapshot_frame (Except.ok witnessActiveData)
      (Except.error "boom") ["2025-01-01"] "t1" none).2
      (Or.inl (by decide))).1⟩

/-! ## C4 — order of effects within a refresh invocation -/

/-- C4 (amended): in every refresh invocation that produces a candidate
snapshot, the Alert Manager is driven on the provider outcomes FIRST, and
then — in this order — change detection against the pre-replacement cached
snapshot, webhook dispatch (only when there are changes), and replacement of
the cached snapshot as the final effect. -/
theorem refresh_event_order
    (aR : Except String (List (String × List (String × ActiveVenue))))
    (eR : Except String (List (String × List EvergreenTimeSlot)))
    (dates : List String) (now : String) (cacheBefore : Option CachedData)
    (h : 0 < datesReturned aR ∨ 0 < datesReturned eR) :
    ∃ k, (refreshAllData aR eR dates now cacheBefore).events =
        [RefreshEvent.alertDrive k, RefreshEvent.detect,
          RefreshEvent.cacheSet] ∨
      (refreshAllData aR eR dates now cacheBefore).events =
        [RefreshEvent.alertDrive k, RefreshEvent.detect, RefreshEvent.webhook,
          RefreshEvent.cacheSet] := by
  rcases aR with ea | ma <;> rcases eR with ee | me
  · rcases h with h | h <;> simp [datesReturned] at h
  · cases me with
    | nil => rcases h with h | h <;> simp [datesReturned] at h
    | cons e es =>
      refine ⟨AlertDrive.activeFailed, ?_⟩
      simp only [refreshAllData, resultData]
      split
      · repeat' split
        all_goals simp_all
      · simp_all
  · cases ma with
    | nil => rcases h with h | h <;> simp [datesReturned] at h
    | cons a as =>
      refine ⟨AlertDrive.evergreenFailed, ?_⟩
      simp only [refreshAllData, resultData]
      split
      · repeat' split
        all_goals simp_all
      · simp_all
  · cases ma with
    | nil =>
      cases me with
      | nil => rcases h with h | h <;> simp [datesReturned] at h
      | cons e es =>
        refine ⟨AlertDrive.activeFailed, ?_⟩
        simp only [refreshAllData, resultData]
        split
        · repeat' split
          all_goals simp_all
        · simp_all
    | cons a as =>
      cases me with
      | nil =>
        refine ⟨AlertDrive.evergreenFailed, ?_⟩
        simp only [refreshAllData, resultData]
        split
        · repeat' split
          all_goals simp_all
        · simp_all
      | cons e es =>
        refine ⟨AlertDrive.recovery, ?_⟩
        simp only [refreshAllData, resultData]
        split
        · repeat' split
          all_goals simp_all
        · simp_all

/-- Witness for C4's amended ordering at a concrete invocation. -/
theorem refresh_event_order_witness :
    ∃ k, (refreshAllData (Except.ok witnessActiveData) (Except.error "boom")
          ["2025-01-01"] "t1" (some witnessPrevSnapshot)).events =
        [RefreshEvent.alertDrive k, RefreshEvent.detect,
          RefreshEvent.cacheSet] ∨
      (refreshAllData (Except.ok witnessActiveData) (Except.error "boom")
          ["2025-01-01"] "t1" (some witnessPrevSnapshot)).events =
        [RefreshEvent.alertDrive k, RefreshEvent.detect, RefreshEvent.webhook,
          RefreshEvent.cacheSet] :=
  refresh_event_order (Except.ok witnessActiveData) (Except.error "boom")
    ["2025-01-01"] "t1" (some witnessPrevSnapshot) (Or.inl (by decide))

/-- Whether an effect is a drive of the Alert Manager. -/
def RefreshEvent.isAlertDrive : RefreshEvent → Bool
  | RefreshEvent.alertDrive _ => true
  | _ => false

/-- Counterexample for C4 as claimed: in a concrete invocation that produces
a candidate snapshot (Active returns one date with a newly available slot,
Evergreen fails) the effect trace is alert drive, change detection, webhook,
snapshot replacement — the Alert Manager is driven strictly BEFORE the
snapshot is replaced, so the claim that it is driven only after step 7 fails:
an alert drive occurs before the first `cacheSet` event. -/
theorem refresh_alert_before_persist_cex :
    (refreshAllData (Except.ok witnessActiveData) (Except.error "boom")
        ["2025-01-01"] "t1" (some witnessPrevSnapshot)).events =
      [RefreshEvent.alertDrive AlertDrive.evergreenFailed,
        RefreshEvent.detect, RefreshEvent.webhook, RefreshEvent.cacheSet] ∧
    ¬(((refreshAllData (Except.ok witnessActiveData) (Except.error "boom")
          ["2025-01-01"] "t1" (some witnessPrevSnapshot)).events.takeWhile
        (fun ev => !(ev == RefreshEvent.cacheSet))).all
        (fun ev => !ev.isAlertDrive) = true) := by
  constructor
  · decide
  · decide

/-! ## C3 — retrying transport -/

/-- The delay schedule of the retry loop: the successive sleeps it would take
if every attempt failed, doubling up to the cap. -/
def delaySchedule (cfg : RetryConfig) : Nat → Nat → List Nat
  | 0, _ => []
  | 1, _ => []
  | f + 2, delay =>
      delay :: delaySchedule cfg (f + 1)
        (min (delay * cfg.backoffMultiplier) cfg.maxDelayMs)

theorem fetchLoop_succ_return (oracle : Nat → FetchOutcome)
    (cfg : RetryConfig) (fuel attempt delay : Nat) (le : Option String)
    (s : Nat) (hs : oracle attempt = FetchOutcome.response s)
    (hret : (respOk s || isClientError s) = true) :
    fetchLoop oracle cfg (fuel + 1) attempt delay le =
      ⟨Except.ok s, 1, []⟩ := by
  cases fuel with
  | zero => simp [fetchLoop, hs, hret]
  | succ g => simp [fetchLoop, hs, hret]

theorem fetchLoop_one_fail (oracle : Nat → FetchOutcome) (cfg : RetryConfig)
    (attempt delay : Nat) (le : Option String)
    (hfail : attemptReturns (oracle attempt) = false) :
    fetchLoop oracle cfg 1 attempt delay le =
      ⟨Except.error (attemptErrorMsg (oracle attempt)), 1, []⟩ := by
  rcases horacle : oracle attempt with m | s
  · simp [fetchLoop, horacle, attemptErrorMsg]
  · rw [horacle] at hfail
    simp only [attemptReturns] at hfail
    simp [fetchLoop, horacle, hfail, attemptErrorMsg]

/-- The sleep-and-continue wrapper of one failed, non-final attempt (used to
state the unfolding lemma for the recursive case). -/
def afterSleep (delay : Nat) (r : RetryResult) : RetryResult :=
  ⟨r.outcome, r.requests + 1, delay :: r.waits⟩

theorem fetchLoop_two_fail (oracle : Nat → FetchOutcome) (cfg : RetryConfig)
    (g attempt delay : Nat) (le : Option String)
    (hfail : attemptReturns (oracle attempt) = false) :
    fetchLoop oracle cfg (g + 2) attempt delay le =
      afterSleep delay
        (fetchLoop oracle cfg (g + 1) (attempt + 1)
          (min (delay * cfg.backoffMultiplier) cfg.maxDelayMs)
          (some (attemptErrorMsg (oracle attempt)))) := by
  rcases horacle : oracle attempt with m | s
  · simp [fetchLoop, horacle, attemptErrorMsg, afterSleep]
  · rw [horacle] at hfail
    simp only [attemptReturns] at hfail
    simp [fetchLoop, horacle, hfail, attemptErrorMsg, afterSleep]

/-- A non-returning first attempt, inverted to its constructor shape. -/
theorem attemptReturns_true_inv (o : FetchOutcome)
    (h : attemptReturns o = true) :
    ∃ s, o = FetchOutcome.response s ∧ (respOk s || isClientError s) = true := by
  cases o with
  | netError m => simp [attemptReturns] at h
  | response s => exact ⟨s, rfl, by simpa [attemptReturns] using h⟩

theorem fetchLoop_requests_le (oracle : Nat → FetchOutcome)
    (cfg : RetryConfig) :
    ∀ (fuel attempt delay : Nat) (le : Option String),
      (fetchLoop oracle cfg fuel attempt delay le).requests ≤ fuel := by
  intro fuel
  induction fuel with
  | zero => intro attempt delay le; simp [fetchLoop]
  | succ f ih =>
    intro attempt delay le
    by_cases hret : attemptReturns (oracle attempt) = true
    · obtain ⟨s, hs, hok⟩ := attemptReturns_true_inv _ hret
      rw [fetchLoop_succ_return oracle cfg f attempt delay le s hs hok]
      simp
    · rw [Bool.not_eq_true] at hret
      cases f with
      | zero =>
        rw [fetchLoop_one_fail oracle cfg attempt delay le hret]
      | succ g =>
        rw [fetchLoop_two_fail oracle cfg g attempt delay le hret]
        have hr := ih (attempt + 1)
          (min (delay * cfg.backoffMultiplier) cfg.maxDelayMs)
          (some (attemptErrorMsg (oracle attempt)))
        simp only [afterSleep]
        omega

theorem fetchLoop_waits_length (oracle : Nat → FetchOutcome)
    (cfg : RetryConfig) :
    ∀ (fuel attempt delay : Nat) (le : Option String), 0 < fuel →
      (fetchLoop oracle cfg fuel attempt delay le).requests =
        (fetchLoop oracle cfg fuel attempt delay le).waits.length + 1 := by
  intro fuel
  induction fuel with
  | zero => intro attempt delay le h; omega
  | succ f ih =>
    intro attempt delay le _
    by_cases hret : attemptReturns (oracle attempt) = true
    · obtain ⟨s, hs, hok⟩ := attemptReturns_true_inv _ hret
      rw [fetchLoop_succ_return oracle cfg f attempt delay le s hs hok]
      simp
    · rw [Bool.not_eq_true] at hret
      cases f with
      | zero =>
        rw [fetchLoop_one_fail oracle cfg attempt delay le hret]
        simp
      | succ g =>
        rw [fetchLoop_two_fail oracle cfg g attempt delay le hret]
        have hr := ih (attempt + 1)
          (min (delay * cfg.backoffMultiplier) cfg.maxDelayMs)
          (some (attemptErrorMsg (oracle attempt))) (by omega)
        simp only [afterSleep, List.length_cons]
        omega

theorem fetchLoop_waits_take (oracle : Nat → FetchOutcome)
    (cfg : RetryConfig) :
    ∀ (fuel delay attempt : Nat) (le : Option String),
      ∃ n, (fetchLoop oracle cfg fuel attempt delay le).waits =
        (delaySchedule cfg fuel delay).take n := by
  intro fuel
  induction fuel with
  | zero => intro delay attempt le; exact ⟨0, by simp [fetchLoop]⟩
  | succ f ih =>
    intro delay attempt le
    by_cases hret : attemptReturns (oracle attempt) = true
    · obtain ⟨s, hs, hok⟩ := attemptReturns_true_inv _ hret
      rw [fetchLoop_succ_return oracle cfg f attempt delay le s hs hok]
      exact ⟨0, by simp⟩
    · rw [Bool.not_eq_true] at hret
      cases f with
      | zero =>
        rw [fetchLoop_one_fail oracle cfg attempt delay le hret]
        exact ⟨0, by simp⟩
      | succ g =>
        rw [fetchLoop_two_fail oracle cfg g attempt delay le hret]
        obtain ⟨n, hn⟩ := ih
          (min (delay * cfg.backoffMultiplier) cfg.maxDelayMs) (attempt + 1)
          (some (attemptErrorMsg (oracle attempt)))
        refine ⟨n + 1, ?_⟩
        simp only [afterSleep]
        rw [hn]
        simp [delaySchedule]

theorem fetchLoop_exhausted (oracle : Nat → FetchOutcome)
    (cfg : RetryConfig) :
    ∀ (fuel attempt delay : Nat) (le : Option String), 0 < fuel →
      (∀ i, i < fuel → attemptReturns (oracle (attempt + i)) = false) →
      (fetchLoop oracle cfg fuel attempt delay le).outcome =
        Except.error (attemptErrorMsg (oracle (attempt + (fuel - 1)))) := by
  intro fuel
  induction fuel with
  | zero => intro attempt delay le h; omega
  | succ f ih =>
    intro attempt delay le _ hfail
    have h0 : attemptReturns (oracle attempt) = false := by
      simpa using hfail 0 (by omega)
    cases f with
    | zero =>
      rw [fetchLoop_one_fail oracle cfg attempt delay le h0]
      simp
    | succ g =>
      rw [fetchLoop_two_fail oracle cfg g attempt delay le h0]
      simp only [afterSleep]
      have hr := ih (attempt + 1)
        (min (delay * cfg.backoffMultiplier) cfg.maxDelayMs)
        (some (attemptErrorMsg (oracle attempt))) (by omega)
        (fun i hi => by
          have hx := hfail (i + 1) (by omega)
          have harith : attempt + 1 + i = attempt + (i + 1) := by omega
          rw [harith]
          exact hx)
      have harith : attempt + 1 + (g + 1 - 1) = attempt + (g + 1 + 1 - 1) := by
        omega
      rw [harith] at hr
      exact hr

/-- C3 counterexample: under the default policy a transport that always
returns HTTP 503 is fetched 4 times (the initial attempt plus
`maxRetries = 3` retries), so "at most 3 times in total" is false. -/
theorem fetchWithRetry_four_requests_cex :
    (fetchWithRetry (fun _ => FetchOutcome.response 503)).requests = 4 ∧
    ¬((fetchWithRetry (fun _ => FetchOutcome.response 503)).requests ≤ 3) := by
  constructor <;> decide

/-- C3 (amended): under the default retry policy (`maxRetries = 3`, initial
delay 1000ms, max delay 10000ms, multiplier 2) `fetchWithRetry` performs the
request at most 4 times in total (one initial attempt plus up to 3 retries);
on HTTP 4xx or success it returns that response immediately with no retry and
no sleep; every retry is preceded by exactly one sleep and the sleeps taken
are an initial prefix of the doubled-up-to-the-cap schedule 1000, 2000,
4000ms; and when all attempts fail, the error surfaced is the one observed on
the last attempt. -/
theorem fetchWithRetry_default_policy (oracle : Nat → FetchOutcome) :
    (fetchWithRetry oracle).requests ≤ 4 ∧
    (fetchWithRetry oracle).requests =
      (fetchWithRetry oracle).waits.length + 1 ∧
    (∀ s, oracle 0 = FetchOutcome.response s →
      (respOk s || isClientError s) = true →
        fetchWithRetry oracle = ⟨Except.ok s, 1, []⟩) ∧
    (∃ n, (fetchWithRetry oracle).waits = [1000, 2000, 4000].take n) ∧
    ((∀ i, i < 4 → attemptReturns (oracle i) = false) →
      (fetchWithRetry oracle).outcome =
        Except.error (attemptErrorMsg (oracle 3))) := by
  refine ⟨?_, ?_, ?_, ?_, ?_⟩
  · exact fetchLoop_requests_le oracle defaultRetryConfig 4 0 1000 none
  · exact fetchLoop_waits_length oracle defaultRetryConfig 4 0 1000 none
      (by omega)
  · intro s hs hret
    exact fetchLoop_succ_return oracle defaultRetryConfig 3 0 1000 none s hs hret
  · have h := fetchLoop_waits_take oracle defaultRetryConfig 4 1000 0 none
    have hsched :
        delaySchedule defaultRetryConfig 4 1000 = [1000, 2000, 4000] := rfl
    rw [hsched] at h
    exact h
  · intro h
    have he := fetchLoop_exhausted oracle defaultRetryConfig 4 0 1000 none
      (by omega) (fun i hi => by simpa using h i hi)
    simpa using he

/-- Witness for C3's amended statement: a transport failing with 503 twice
then succeeding returns the success after two sleeps (1000 then 2000 ms) and
three requests. -/
theorem fetchWithRetry_default_policy_witness :
    (fetchWithRetry
        (fun n => if n < 2 then FetchOutcome.response 503
          else FetchOutcome.response 200)).requests = 3 ∧
    (fetchWithRetry
        (fun n => if n < 2 then FetchOutcome.response 503
          else FetchOutcome.response 200)).waits = [1000, 2000] ∧
    (fetchWithRetry
        (fun n => if n < 2 then FetchOutcome.response 503
          else FetchOutcome.response 200)).requests ≤ 4 := by
  have h := fetchWithRetry_default_policy
    (fun n => if n < 2 then FetchOutcome.response 503
      else FetchOutcome.response 200)
  exact ⟨by decide, by decide, h.1⟩

/-! ## C6 — alert cooldown -/

/-- `sendAlert` never changes the failure counter. -/
theorem sendAlert_counter (env : AlertEnv) (sendOk : Bool) (now : Int)
    (subject : Subject) (state : AlertState) :
    ((sendAlert env sendOk now subject state).2).consecutiveFailures =
      state.consecutiveFailures := by
  unfold sendAlert
  repeat' split
  all_goals rfl

/-- C6: (a) a non-recovery alert attempted while the time since the last
delivered alert is under the configured cooldown (default 30 minutes) is
suppressed and leaves the alert state unchanged; (b) two failure events less
than the cooldown apart — with the email gates open and delivery succeeding —
deliver exactly the first alert and suppress the second; (c) a recovery alert
is delivered regardless of cooldown whenever there are recorded failures and
the email gates are open. -/
theorem alert_cooldown_behavior :
    (∀ (env : AlertEnv) (sendOk : Bool) (now : Int) (subject : Subject)
        (state : AlertState),
      isInCooldown state env.cooldownMinutes now = true →
      subject.includesRecovered = false →
      sendAlert env sendOk now subject state = (false, state)) ∧
    (∀ (env : AlertEnv) (t1 t2 : Int) (p1 p2 : Option String)
        (state : AlertState),
      env.hasEmailBinding = true → env.hasRecipient = true →
      env.emailClassAvailable = true →
      state.lastAlertTime = none →
      t2 - t1 < (env.cooldownMinutes : Int) * 60 * 1000 →
      (onRefreshFailure env true t1 p1 state).1 = true ∧
      (onRefreshFailure env true t2 p2
          (onRefreshFailure env true t1 p1 state).2).1 = false) ∧
    (∀ (env : AlertEnv) (now : Int) (state : AlertState),
      env.hasEmailBinding = true → env.hasRecipient = true →
      env.emailClassAvailable = true →
      0 < state.consecutiveFailures →
      (onRecovery env true now state).1 = true) := by
  refine ⟨?_, ?_, ?_⟩
  · intro env sendOk now subject state hcd hnr
    unfold sendAlert
    rw [hcd, hnr]
    simp
  · intro env t1 t2 p1 p2 state hb hr hc hnone hlt
    have hsubj1 :
        (match p1 with
          | some p => Subject.providerFailed p
          | none => Subject.allProvidersFailed).includesRecovered = false := by
      cases p1 <;> rfl
    have hsubj2 :
        (match p2 with
          | some p => Subject.providerFailed p
          | none => Subject.allProvidersFailed).includesRecovered = false := by
      cases p2 <;> rfl
    have h1 : onRefreshFailure env true t1 p1 state =
        (true, ⟨state.consecutiveFailures + 1, some t1⟩) := by
      simp [onRefreshFailure, sendAlert, isInCooldown, hnone, hb, hr, hc,
        hsubj1]
    refine ⟨by rw [h1], ?_⟩
    rw [h1]
    simp [onRefreshFailure, sendAlert, isInCooldown, hsubj2, hlt]
  · intro env now state hb hr hc hpos
    unfold onRecovery
    rw [if_pos hpos]
    have : (sendAlert env true now Subject.recovered state).1 = true := by
      unfold sendAlert
      have : Subject.recovered.includesRecovered = true := rfl
      rw [this]
      simp [hb, hr, hc]
    simpa using this

/-- Witness for C6 at concrete values: cooldown 30 min, two failures 1 s
apart deliver exactly one alert, and a recovery 1 s after a delivered alert
still goes out. -/
theorem alert_cooldown_behavior_witness :
    ((onRefreshFailure ⟨30, true, true, true⟩ true 0 (some "Active")
        ⟨0, none⟩).1 = true ∧
      (onRefreshFailure ⟨30, true, true, true⟩ true 1000 (some "Evergreen")
        (onRefreshFailure ⟨30, true, true, true⟩ true 0 (some "Active")
          ⟨0, none⟩).2).1 = false) ∧
    (onRecovery ⟨30, true, true, true⟩ true 1000 ⟨2, some 0⟩).1 = true := by
  constructor
  · exact (alert_cooldown_behavior.2.1 ⟨30, true, true, true⟩ 0 1000
      (some "Active") (some "Evergreen") ⟨0, none⟩ rfl rfl rfl rfl
      (by norm_num))
  · exact (alert_cooldown_behavior.2.2 ⟨30, true, true, true⟩ 1000
      ⟨2, some 0⟩ rfl rfl rfl (by norm_num))

/-! ## C9 — the failure counter increments unconditionally -/

/-- C9: every `onRefreshFailure` call increments the persisted
consecutive-failure counter by exactly one, whatever the cooldown state, the
email gates and the delivery outcome; a sequence of failure events adds its
length to the counter; and a recovery after recorded failures reports exactly
the recorded count — including failures whose alerts were never delivered. -/
theorem failure_counter_increments :
    (∀ (env : AlertEnv) (sendOk : Bool) (now : Int) (provider : Option String)
        (state : AlertState),
      ((onRefreshFailure env sendOk now provider state).2).consecutiveFailures
        = state.consecutiveFailures + 1) ∧
    (∀ (events : List (AlertEnv × Bool × Int × Option String))
        (state : AlertState),
      (events.foldl
          (fun st e => (onRefreshFailure e.1 e.2.1 e.2.2.1 e.2.2.2 st).2)
          state).consecutiveFailures =
        state.consecutiveFailures + events.length) ∧
    (∀ (env : AlertEnv) (sendOk : Bool) (now : Int) (state : AlertState),
      0 < state.consecutiveFailures →
      (onRecovery env sendOk now state).2.1 =
        some state.consecutiveFailures) := by
  have hinc : ∀ (env : AlertEnv) (sendOk : Bool) (now : Int)
      (provider : Option String) (state : AlertState),
      ((onRefreshFailure env sendOk now provider state).2).consecutiveFailures
        = state.consecutiveFailures + 1 := by
    intro env sendOk now provider state
    unfold onRefreshFailure
    rw [sendAlert_counter]
  refine ⟨hinc, ?_, ?_⟩
  · intro events
    induction events with
    | nil => intro state; simp
    | cons e rest ih =>
      intro state
      simp only [List.foldl_cons, List.length_cons, ih, hinc]
      omega
  · intro env sendOk now state hpos
    unfold onRecovery
    rw [if_pos hpos]

/-- Witness for C9: two suppressed/undelivered failures (no email binding)
still raise the counter from 0 to 2, and the following recovery reports 2. -/
theorem failure_counter_increments_witness :
    ((onRefreshFailure ⟨30, false, false, false⟩ false 1 none
        (onRefreshFailure ⟨30, false, false, false⟩ false 0 none
          ⟨0, none⟩).2).2).consecutiveFailures = 2 ∧
    (onRecovery ⟨30, false, false, false⟩ false 2
        ⟨2, none⟩).2.1 = some 2 := by
  constructor
  · rw [failure_counter_increments.1, failure_counter_increments.1]
  · exact failure_counter_increments.2.2 ⟨30, false, false, false⟩ false 2
      ⟨2, none⟩ (by norm_num)

/-! ## C5 — every merged snapshot carries all three configured venues -/

/-- Whether a provider argument to `mergeProviderData` counts as failed or
empty (`null` map or zero dates). -/
def providerEmpty {α : Type} (d : Option (List α)) : Prop :=
  match d with
  | none => True
  | some m => m = []

/-- A venue list of exactly the three configured venues with metadata names
has the shape the C5 claim asserts. -/
theorem three_venues_shape (venues : List (VenueId × VenueAvailability))
    (db dc de : List (String × DayAvailability))
    (hv : venues =
      [(VenueId.activeBond,
        ⟨(venueMeta VenueId.activeBond).name,
          (venueMeta VenueId.activeBond).address, db⟩),
       (VenueId.activeCorinthian,
        ⟨(venueMeta VenueId.activeCorinthian).name,
          (venueMeta VenueId.activeCorinthian).address, dc⟩),
       (VenueId.evergreen,
        ⟨(venueMeta VenueId.evergreen).name,
          (venueMeta VenueId.evergreen).address, de⟩)]) :
    venues.map Prod.fst =
      [VenueId.activeBond, VenueId.activeCorinthian, VenueId.evergreen] ∧
    (∀ vid va, (vid, va) ∈ venues →
      va.name = (venueMeta vid).name ∧
      va.address = (venueMeta vid).address) ∧
    recordGet venues VenueId.activeBond =
      some ⟨(venueMeta VenueId.activeBond).name,
        (venueMeta VenueId.activeBond).address, db⟩ ∧
    recordGet venues VenueId.activeCorinthian =
      some ⟨(venueMeta VenueId.activeCorinthian).name,
        (venueMeta VenueId.activeCorinthian).address, dc⟩ ∧
    recordGet venues VenueId.evergreen =
      some ⟨(venueMeta VenueId.evergreen).name,
        (venueMeta VenueId.evergreen).address, de⟩ := by
  subst hv
  refine ⟨rfl, ?_, by rfl, by rfl, by rfl⟩
  intro vid va hmem
  simp at hmem
  rcases hmem with ⟨rfl, rfl⟩ | ⟨rfl, rfl⟩ | ⟨rfl, rfl⟩ <;> exact ⟨rfl, rfl⟩

/-- The venue list built by `mergeProviderData`, in every combination of
provider outcomes, is the three configured venues in order; failed or empty
providers contribute empty `dates`. -/
theorem mergeProviderData_venues_eq
    (a : Option (List (String × List (String × ActiveVenue))))
    (e : Option (List (String × List EvergreenTimeSlot)))
    (dates : List String) (sa se : ProviderStatus) (now : String) :
    ∃ db dc de,
      (mergeProviderData a e dates sa se now).venues =
        [(VenueId.activeBond,
          ⟨(venueMeta VenueId.activeBond).name,
            (venueMeta VenueId.activeBond).address, db⟩),
         (VenueId.activeCorinthian,
          ⟨(venueMeta VenueId.activeCorinthian).name,
            (venueMeta VenueId.activeCorinthian).address, dc⟩),
         (VenueId.evergreen,
          ⟨(venueMeta VenueId.evergreen).name,
            (venueMeta VenueId.evergreen).address, de⟩)] ∧
      (providerEmpty a → db = [] ∧ dc = []) ∧
      (providerEmpty e → de = []) := by
  have hactive : ∀ m : List (String × List (String × ActiveVenue)),
      ∃ db dc,
        transformActiveData m =
          [(VenueId.activeBond,
            ⟨(venueMeta VenueId.activeBond).name,
              (venueMeta VenueId.activeBond).address, db⟩),
           (VenueId.activeCorinthian,
            ⟨(venueMeta VenueId.activeCorinthian).name,
              (venueMeta VenueId.activeCorinthian).address, dc⟩)] :=
    fun m => ⟨_, _, rfl⟩
  have hven : ∀ ve : List (String × List EvergreenTimeSlot),
      ∃ de,
        transformEvergreenData ve =
          ⟨(venueMeta VenueId.evergreen).name,
            (venueMeta VenueId.evergreen).address, de⟩ :=
    fun ve => ⟨_, rfl⟩
  have hae : ∀ x : Option (List (String × List (String × ActiveVenue))),
      (providerEmpty x ∧ (x = none ∨ x = some [])) ∨
      ∃ hd tl, x = some (hd :: tl) := by
    intro x
    rcases x with _ | m
    · exact Or.inl ⟨trivial, Or.inl rfl⟩
    · cases m with
      | nil => exact Or.inl ⟨rfl, Or.inr rfl⟩
      | cons hd tl => exact Or.inr ⟨hd, tl, rfl⟩
  have hee : ∀ x : Option (List (String × List EvergreenTimeSlot)),
      (providerEmpty x ∧ (x = none ∨ x = some [])) ∨
      ∃ hd tl, x = some (hd :: tl) := by
    intro x
    rcases x with _ | m
    · exact Or.inl ⟨trivial, Or.inl rfl⟩
    · cases m with
      | nil => exact Or.inl ⟨rfl, Or.inr rfl⟩
      | cons hd tl => exact Or.inr ⟨hd, tl, rfl⟩
  rcases hae a with ⟨hpa, ha⟩ | ⟨mhd, mtl, rfl⟩ <;>
    rcases hee e with ⟨hpe, he⟩ | ⟨ehd, etl, rfl⟩
  · refine ⟨[], [], [], ?_, fun _ => ⟨rfl, rfl⟩, fun _ => rfl⟩
    rcases ha with rfl | rfl <;> rcases he with rfl | rfl <;>
      simp [mergeProviderData, recordSet]
  · obtain ⟨de, hde⟩ := hven (ehd :: etl)
    refine ⟨[], [], de, ?_, fun _ => ⟨rfl, rfl⟩, fun hx => ?_⟩
    · rcases ha with rfl | rfl <;>
        simp [mergeProviderData, recordSet, hde]
    · simp [providerEmpty] at hx
  · obtain ⟨db, dc, hda⟩ := hactive (mhd :: mtl)
    refine ⟨db, dc, [], ?_, fun hx => ?_, fun _ => rfl⟩
    · rcases he with rfl | rfl <;>
        simp [mergeProviderData, recordSet, hda]
    · simp [providerEmpty] at hx
  · obtain ⟨db, dc, hda⟩ := hactive (mhd :: mtl)
    obtain ⟨de, hde⟩ := hven (ehd :: etl)
    refine ⟨db, dc, de, ?_, fun hx => ?_, fun hx => ?_⟩
    · simp [mergeProviderData, recordSet, hda, hde]
    · simp [providerEmpty] at hx
    · simp [providerEmpty] at hx

/-- C5: every snapshot produced by `mergeProviderData` has exactly the three
configured venues, in the order active-bond, active-corinthian, evergreen;
every venue's `name` and `address` come from the static `VENUES` metadata;
and a venue whose provider failed or returned no data is present with an
empty `dates` map rather than omitted. -/
theorem mergeProviderData_three_venues
    (a : Option (List (String × List (String × ActiveVenue))))
    (e : Option (List (String × List EvergreenTimeSlot)))
    (dates : List String) (sa se : ProviderStatus) (now : String) :
    ((mergeProviderData a e dates sa se now).venues.map Prod.fst =
      [VenueId.activeBond, VenueId.activeCorinthian, VenueId.evergreen]) ∧
    (∀ vid va,
      (vid, va) ∈ (mergeProviderData a e dates sa se now).venues →
      va.name = (venueMeta vid).name ∧
      va.address = (venueMeta vid).address) ∧
    (providerEmpty a →
      recordGet (mergeProviderData a e dates sa se now).venues
          VenueId.activeBond =
        some ⟨(venueMeta VenueId.activeBond).name,
          (venueMeta VenueId.activeBond).address, []⟩ ∧
      recordGet (mergeProviderData a e dates sa se now).venues
          VenueId.activeCorinthian =
        some ⟨(venueMeta VenueId.activeCorinthian).name,
          (venueMeta VenueId.activeCorinthian).address, []⟩) ∧
    (providerEmpty e →
      recordGet (mergeProviderData a e dates sa se now).venues
          VenueId.evergreen =
        some ⟨(venueMeta VenueId.evergreen).name,
          (venueMeta VenueId.evergreen).address, []⟩) := by
  obtain ⟨db, dc, de, hv, hea, hee⟩ :=
    mergeProviderData_venues_eq a e dates sa se now
  obtain ⟨h1, h2, h3, h4, h5⟩ :=
    three_venues_shape (mergeProviderData a e dates sa se now).venues
      db dc de hv
  refine ⟨h1, h2, fun hpa => ?_, fun hpe => ?_⟩
  · obtain ⟨rfl, rfl⟩ := hea hpa
    exact ⟨h3, h4⟩
  · obtain rfl := hee hpe
    exact h5

/-- Witness for C5 with both providers failed: all three venues are present
with metadata names and empty dates. -/
theorem mergeProviderData_three_venues_witness :
    recordGet (mergeProviderData none none [] ⟨PStatus.error, some "t", none⟩
        ⟨PStatus.error, some "t", none⟩ "t").venues VenueId.activeBond =
      some ⟨(venueMeta VenueId.activeBond).name,
        (venueMeta VenueId.activeBond).address, []⟩ ∧
    recordGet (mergeProviderData none none [] ⟨PStatus.error, some "t", none⟩
        ⟨PStatus.error, some "t", none⟩ "t").venues VenueId.evergreen =
      some ⟨(venueMeta VenueId.evergreen).name,
        (venueMeta VenueId.evergreen).address, []⟩ :=
  ⟨((mergeProviderData_three_venues none none []
      ⟨PStatus.error, some "t", none⟩ ⟨PStatus.error, some "t", none⟩
      "t").2.2.1 trivial).1,
   (mergeProviderData_three_venues none none []
      ⟨PStatus.error, some "t", none⟩ ⟨PStatus.error, some "t", none⟩
      "t").2.2.2 trivial⟩

/-! ## C7 — authenticated-provider premium/available flags -/

/-- A concrete Evergreen day: at 06:00 only premium Court 7 is open; at 07:00
a standard court and the premium court are both open. -/
def witnessEvergreenDay : List EvergreenTimeSlot :=
  [⟨"06:00", [⟨1, "🏸 1", 1, 0, 0⟩, ⟨7, "🏸 7", 0, 0, 0⟩]⟩,
   ⟨"07:00", [⟨2, "🏸 2", 0, 0, 0⟩, ⟨7, "🏸 7", 0, 0, 0⟩]⟩]

/-- Some standard (non-premium) badminton court is open at this slot. -/
def slotStandardAvailable (courts : List EvergreenCourt) : Bool :=
  courts.any (fun c =>
    isBadmintonCourt c && isEvergreenSlotAvailable c && isStandardCourt c)

/-- The premium badminton court is open at this slot. -/
def slotPremiumAvailable (courts : List EvergreenCourt) : Bool :=
  courts.any (fun c =>
    isBadmintonCourt c && isEvergreenSlotAvailable c && isPremiumCourt c)

/-- The premium court never counts as standard. -/
theorem not_standard_of_premium (c : EvergreenCourt)
    (h : isPremiumCourt c = true) : isStandardCourt c = false := by
  unfold isPremiumCourt at h
  have hname : c.name = "🏸 7" := of_decide_eq_true h
  simp [isStandardCourt, hname]

/-- The court loop computes exactly the any-court characterizations of the
standard and premium flags, for every starting accumulator. -/
theorem evergreenScan_flags :
    ∀ (courts : List EvergreenCourt) (s0 p0 : Bool) (cs0 : List String),
      (courts.foldl evergreenScanStep (s0, p0, cs0)).1 =
        (s0 || slotStandardAvailable courts) ∧
      (courts.foldl evergreenScanStep (s0, p0, cs0)).2.1 =
        (p0 || slotPremiumAvailable courts) := by
  intro courts
  induction courts with
  | nil =>
    intro s0 p0 cs0
    simp [slotStandardAvailable, slotPremiumAvailable]
  | cons c rest ih =>
    intro s0 p0 cs0
    cases hb : isBadmintonCourt c with
    | false =>
      obtain ⟨ih1, ih2⟩ := ih s0 p0 cs0
      constructor
      · simp [evergreenScanStep, hb, ih1, slotStandardAvailable]
      · simp [evergreenScanStep, hb, ih2, slotPremiumAvailable]
    | true =>
      cases ha : isEvergreenSlotAvailable c with
      | false =>
        obtain ⟨ih1, ih2⟩ := ih s0 p0 cs0
        constructor
        · simp [evergreenScanStep, hb, ha, ih1, slotStandardAvailable]
        · simp [evergreenScanStep, hb, ha, ih2, slotPremiumAvailable]
      | true =>
        cases hp : isPremiumCourt c with
        | true =>
          have hs := not_standard_of_premium c hp
          obtain ⟨ih1, ih2⟩ :=
            ih s0 true (cs0 ++ [extractCourtNumber c.name])
          constructor
          · simp [evergreenScanStep, hb, ha, hp, ih1,
              slotStandardAvailable, hs]
          · simp [evergreenScanStep, hb, ha, hp, ih2,
              slotPremiumAvailable]
        | false =>
          cases hstd : isStandardCourt c with
          | true =>
            obtain ⟨ih1, ih2⟩ :=
              ih true p0 (cs0 ++ [extractCourtNumber c.name])
            constructor
            · simp [evergreenScanStep, hb, ha, hp, hstd, ih1,
                slotStandardAvailable]
            · simp [evergreenScanStep, hb, ha, hp, hstd, ih2,
                slotPremiumAvailable]
          | false =>
            obtain ⟨ih1, ih2⟩ :=
              ih s0 p0 (cs0 ++ [extractCourtNumber c.name])
            constructor
            · simp [evergreenScanStep, hb, ha, hp, hstd, ih1,
                slotStandardAvailable]
            · simp [evergreenScanStep, hb, ha, hp, hstd, ih2,
                slotPremiumAvailable]

/-- The slots component of the Evergreen day loop is the record built by
setting each label's slot value, independently of the running count. -/
theorem evergreenDay_slots_eq (timeSlots : Option (List EvergreenTimeSlot)) :
    ∀ (ts : List String) (l0 : List (String × TimeSlot)) (n0 : Nat),
      (ts.foldl (evergreenDayStep timeSlots) (l0, n0)).1 =
        ts.foldl
          (fun l t => recordSet l t
            (evergreenSlotData (evergreenCourtsAt timeSlots t))) l0 := by
  intro ts
  induction ts with
  | nil => intro l0 n0; rfl
  | cons hd tl ih => intro l0 n0; exact ih _ _

/-- Unfolding equation for the slots of `transformEvergreenDayData`. -/
theorem transformEvergreenDayData_slots
    (timeSlots : Option (List EvergreenTimeSlot)) :
    (transformEvergreenDayData timeSlots).slots =
      (TIME_SLOTS.foldl (evergreenDayStep timeSlots) ([], 0)).1 := by
  simp only [transformEvergreenDayData]

/-- C7: for every normalized authenticated-provider time slot (every label of
the fixed grid), the produced slot's `available` flag is the OR of standard
and premium availability among that label's courts, and `only_premium` is set
(to `some true`) exactly when no standard court is available but the premium
court is; when a standard court is available (with or without the premium
court) `only_premium` is absent. -/
theorem evergreen_slot_premium_flags
    (timeSlots : Option (List EvergreenTimeSlot)) (t : String)
    (ht : t ∈ TIME_SLOTS) :
    recordGet (transformEvergreenDayData timeSlots).slots t =
      some (evergreenSlotData (evergreenCourtsAt timeSlots t)) ∧
    (evergreenSlotData (evergreenCourtsAt timeSlots t)).available =
      (slotStandardAvailable (evergreenCourtsAt timeSlots t) ||
        slotPremiumAvailable (evergreenCourtsAt timeSlots t)) ∧
    (evergreenSlotData (evergreenCourtsAt timeSlots t)).only_premium =
      (if !slotStandardAvailable (evergreenCourtsAt timeSlots t) &&
          slotPremiumAvailable (evergreenCourtsAt timeSlots t)
        then some true else none) := by
  have hfold :
      (transformEvergreenDayData timeSlots).slots =
        TIME_SLOTS.foldl
          (fun l s => recordSet l s
            (evergreenSlotData (evergreenCourtsAt timeSlots s))) [] :=
    (transformEvergreenDayData_slots timeSlots).trans
      (evergreenDay_slots_eq timeSlots TIME_SLOTS [] 0)
  obtain ⟨h1, h2⟩ :=
    evergreenScan_flags (evergreenCourtsAt timeSlots t) false false []
  refine ⟨?_, ?_, ?_⟩
  · rw [hfold,
      recordGet_foldl_recordSet
        (fun s => evergreenSlotData (evergreenCourtsAt timeSlots s))
        TIME_SLOTS [] t,
      if_pos ht]
  · simp only [evergreenSlotData, evergreenSlotScan]
    simp only [h1, h2, Bool.false_or]
  · simp only [evergreenSlotData, evergreenSlotScan]
    simp only [h1, h2, Bool.false_or]

/-- Witness for C7 at a concrete day: at 06:00 only the premium Court 7 is
open, so the slot is available and premium-only; at 07:00 both a standard
court and the premium court are open, so `only_premium` is absent. -/
theorem evergreen_slot_premium_flags_witness :
    (evergreenSlotData (evergreenCourtsAt (some witnessEvergreenDay) "06:00")
        ).available = true ∧
    (evergreenSlotData (evergreenCourtsAt (some witnessEvergreenDay) "06:00")
        ).only_premium = some true ∧
    (evergreenSlotData (evergreenCourtsAt (some witnessEvergreenDay) "07:00")
        ).only_premium = none := by
  have h6 := evergreen_slot_premium_flags (some witnessEvergreenDay) "06:00"
    (by decide)
  have h7 := evergreen_slot_premium_flags (some witnessEvergreenDay) "07:00"
    (by decide)
  refine ⟨?_, ?_, ?_⟩
  · rw [h6.2.1]; decide
  · rw [h6.2.2]; decide
  · rw [h7.2.2]; decide

/-! ## C2 — one-directional change detection -/

/-- C2: a `SlotChange` for a (venue, date, slot) triple is produced by
`detectChanges` exactly when a previous snapshot exists, the venue and the
date are present in both snapshots, the slot in the current day is available,
and the slot in the previous day was unavailable (a missing label counting as
unavailable). The nodup hypotheses say the current snapshot's object keys are
duplicate-free, as JS object keys always are. In particular an
available→unavailable transition, a first run with no previous snapshot, and
a venue or date absent from the previous snapshot each produce no
`SlotChange`. -/
theorem detectChanges_mem_iff (previous : Option CachedData)
    (current : CachedData)
    (hv : (current.venues.map Prod.fst).Nodup)
    (hd : ∀ ve ∈ current.venues, ((ve.2.dates.map Prod.fst).Nodup))
    (hs : ∀ ve ∈ current.venues, ∀ de ∈ ve.2.dates,
      ((de.2.slots.map Prod.fst).Nodup))
    (v : VenueId) (d t : String) :
    (∃ c ∈ detectChanges previous current,
      c.venueId = v ∧ c.date = d ∧ c.timeSlot = t) ↔
    (∃ prev, previous = some prev ∧
      ∃ cv, recordGet current.venues v = some cv ∧
      ∃ pv, recordGet prev.venues v = some pv ∧
      ∃ cday, recordGet cv.dates d = some cday ∧
      ∃ pday, recordGet pv.dates d = some pday ∧
      ∃ cslot, recordGet cday.slots t = some cslot ∧
        cslot.available = true ∧
        (match recordGet pday.slots t with
          | some ps => ps.available
          | none => false) = false) := by
  cases previous with
  | none => simp [detectChanges]
  | some prev =>
    constructor
    · rintro ⟨c, hc, rfl, rfl, rfl⟩
      simp only [detectChanges] at hc
      rw [List.mem_flatMap] at hc
      obtain ⟨ve, hve, hc⟩ := hc
      rcases hpv : recordGet prev.venues ve.1 with _ | pv
      · rw [hpv] at hc
        simp at hc
      · rw [hpv] at hc
        rw [List.mem_flatMap] at hc
        obtain ⟨de, hde, hc⟩ := hc
        rcases hpd : recordGet pv.dates de.1 with _ | pday
        · rw [hpd] at hc
          simp at hc
        · rw [hpd] at hc
          rw [List.mem_filterMap] at hc
          obtain ⟨se, hse, hceq⟩ := hc
          split at hceq
          · injection hceq with hceq
            subst hceq
            rename_i hcond
            rw [Bool.and_eq_true] at hcond
            obtain ⟨hw, hava⟩ := hcond
            have hwas :
                (match recordGet pday.slots se.1 with
                  | some ps => ps.available
                  | none => false) = false := by
              simpa using hw
            exact ⟨prev, rfl, ve.2, recordGet_eq_some_of_mem hv hve, pv, hpv,
              de.2, recordGet_eq_some_of_mem (hd ve hve) hde, pday, hpd,
              se.2, recordGet_eq_some_of_mem (hs ve hve de hde) hse,
              hava, hwas⟩
          · cases hceq
    · rintro ⟨prev0, hpeq, cv, hcv, pv, hpv, cday, hcd, pday, hpd, cslot,
        hcs, hava, hwas⟩
      cases hpeq
      refine ⟨⟨v, d, t, cslot.available_courts.getD [],
        cslot.only_premium⟩, ?_, rfl, rfl, rfl⟩
      simp only [detectChanges]
      rw [List.mem_flatMap]
      refine ⟨(v, cv), mem_of_recordGet_eq_some hcv, ?_⟩
      simp only [hpv]
      rw [List.mem_flatMap]
      refine ⟨(d, cday), mem_of_recordGet_eq_some hcd, ?_⟩
      simp only [hpd]
      rw [List.mem_filterMap]
      refine ⟨(t, cslot), mem_of_recordGet_eq_some hcs, ?_⟩
      simp [hwas, hava]

/-- A concrete previous snapshot for the C2 witness: Bond, 2025-01-02, slot
07:00 unavailable. -/
def c2Previous : CachedData :=
  ⟨"t0", "2025-01-02", "2025-01-02",
    [(VenueId.activeBond,
      ⟨"Active - Bond Crescent",
        "47 Bond Crescent, Forrest Hill, Auckland 0620",
        [("2025-01-02",
          ⟨[("07:00", ⟨false, none, none⟩)], ⟨17, 0⟩⟩)]⟩)],
    ⟨⟨PStatus.ok, some "t0", none⟩, ⟨PStatus.ok, some "t0", none⟩⟩⟩

/-- The matching current snapshot: the same slot now available. -/
def c2Current : CachedData :=
  ⟨"t1", "2025-01-02", "2025-01-02",
    [(VenueId.activeBond,
      ⟨"Active - Bond Crescent",
        "47 Bond Crescent, Forrest Hill, Auckland 0620",
        [("2025-01-02",
          ⟨[("07:00", ⟨true, none, some ["3"]⟩)], ⟨17, 1⟩⟩)]⟩)],
    ⟨⟨PStatus.ok, some "t1", none⟩, ⟨PStatus.ok, some "t1", none⟩⟩⟩

/-- Witness for C2: the unavailable→available transition at
(active-bond, 2025-01-02, 07:00) yields a `SlotChange`. -/
theorem detectChanges_mem_iff_witness :
    ∃ c ∈ detectChanges (some c2Previous) c2Current,
      c.venueId = VenueId.activeBond ∧ c.date = "2025-01-02" ∧
        c.timeSlot = "07:00" :=
  (detectChanges_mem_iff (some c2Previous) c2Current (by decide)
      (by decide) (by decide) VenueId.activeBond "2025-01-02" "07:00").mpr
    ⟨c2Previous, rfl, _, rfl, _, rfl, _, rfl, _, rfl, _, rfl, rfl, rfl⟩

end CourtFinder
